import Mathlib

/-!
Shallow embedding of the gw2auth background-jobs token reconciliation engine.

The engine lives in the `TokenChecker` type (`Run`, `loadBatch`, `checkBatch`,
`checkSingle`, `checkSingleInternal`, `getGw2AccountName`); an older draft of
the same loop is the free function `run` in run.go.  Timestamps and durations
are modelled as `Int` nanoseconds (Go's `time.Duration` / `time.Time` compare
as 64-bit nanosecond counts); Go's integer division on durations truncates
toward zero, which is `Int.tdiv`.
-/

namespace TokenChecker

/-- `validCheckTimeout = time.Hour * 24 * 7` in nanoseconds. -/
def validCheckTimeout : Int := 7 * 24 * 3600 * 1000000000

/-- `validCheckInterval = time.Hour * 24` in nanoseconds. -/
def validCheckInterval : Int := 24 * 3600 * 1000000000

/-- `nameCheckInterval = validCheckInterval`. -/
def nameCheckInterval : Int := validCheckInterval

/-- `timePerToken = time.Second * 10` (constant inside `Run`). -/
def timePerToken : Int := 10 * 1000000000

/-- One row of the `gw2_account_api_tokens` table (the columns the engine
reads or writes). -/
structure TokenLink where
  accountId : Nat
  gw2AccountId : Nat
  gw2ApiToken : String
  lastValidTime : Int
  lastValidCheckTime : Int
  deriving DecidableEq, Repr

/-- One row of the `gw2_accounts` table (the columns the engine reads or
writes). -/
structure Account where
  accountId : Nat
  gw2AccountId : Nat
  gw2AccountName : String
  lastNameCheckTime : Int
  deriving DecidableEq, Repr

/-- The persistent store: the two tables the engine touches. -/
structure Db where
  tokens : List TokenLink
  accounts : List Account
  deriving DecidableEq, Repr

/-- A joined `gw2_account_api_tokens ⋈ gw2_accounts` row as produced by the
selector query's FROM/INNER JOIN clause.  The SELECT list projects four of
these columns into the Go `token` struct; the time columns are kept here
because the WHERE and ORDER BY clauses read them. -/
structure TokenRow where
  accountId : Nat
  gw2AccountId : Nat
  gw2AccountName : String
  gw2ApiToken : String
  lastValidTime : Int
  lastValidCheckTime : Int
  lastNameCheckTime : Int
  deriving DecidableEq, Repr

/-- `INNER JOIN gw2_accounts acc ON tk.account_id = acc.account_id AND
tk.gw2_account_id = acc.gw2_account_id`.  Join keys are unique per the
storage-layer integrity invariant (token-link and account rows exist 1:1),
so the first matching account row is the only one. -/
def joinRows (db : Db) : List TokenRow :=
  db.tokens.filterMap fun t =>
    match db.accounts.find? (fun a =>
        a.accountId = t.accountId && a.gw2AccountId = t.gw2AccountId) with
    | some a => some
        { accountId := t.accountId
          gw2AccountId := t.gw2AccountId
          gw2AccountName := a.gw2AccountName
          gw2ApiToken := t.gw2ApiToken
          lastValidTime := t.lastValidTime
          lastValidCheckTime := t.lastValidCheckTime
          lastNameCheckTime := a.lastNameCheckTime }
    | none => none

/-- The WHERE clause of the selector query:
`tk.last_valid_time >= now - validCheckTimeout AND
 (tk.last_valid_check_time <= now - validCheckInterval OR
  acc.last_name_check_time <= now - nameCheckInterval)`. -/
def eligible (now : Int) (r : TokenRow) : Bool :=
  now - validCheckTimeout ≤ r.lastValidTime &&
    (r.lastValidCheckTime ≤ now - validCheckInterval ||
      r.lastNameCheckTime ≤ now - nameCheckInterval)

/-- `LEAST(tk.last_valid_check_time, acc.last_name_check_time)`, the
staleness priority key of the ORDER BY clause. -/
def staleKey (r : TokenRow) : Int :=
  min r.lastValidCheckTime r.lastNameCheckTime

/-- The ordering relation of `ORDER BY LEAST(...) ASC`. -/
def staleLE (a b : TokenRow) : Prop :=
  staleKey a ≤ staleKey b

instance : DecidableRel staleLE := fun a b => Int.decLe _ _

instance : IsTotal TokenRow staleLE := ⟨fun a b => Int.le_total _ _⟩

instance : IsTrans TokenRow staleLE := ⟨fun _ _ _ => le_trans⟩

/-- `TokenChecker.loadBatch` with a nonnegative limit: the selector query
(WHERE filter, ORDER BY the staleness key ascending, LIMIT).  Ties in the
ORDER BY are broken arbitrarily by the storage layer; the model fixes one
deterministic choice (a stable sort). -/
def loadBatch (db : Db) (now : Int) (limit : Nat) : List TokenRow :=
  (List.insertionSort staleLE ((joinRows db).filter (eligible now))).take limit

/-- What one call to `loadBatch` does before any rows are produced. -/
inductive LoadBatchResult where
  | panicked
  | ok (rows : List TokenRow)
  deriving DecidableEq

/-- `TokenChecker.loadBatch` as called by `Run`: the batch size is a Go
`int`.  The function's first statement is
`tokensToCheck := make([]token, 0, batchSize)`; with a negative capacity
`make` panics at run time ("makeslice: cap out of range") before any query
is issued, and nothing in the program recovers the panic.  With a
nonnegative batch size the selection runs with that LIMIT (LIMIT 0 simply
returns no rows). -/
def loadBatchInt (db : Db) (now : Int) (batchSize : Int) : LoadBatchResult :=
  if batchSize < 0 then .panicked else .ok (loadBatch db now batchSize.toNat)

/-- `batchSize := min(int(remainingTime/timePerToken), 100)` in `Run`.
Go duration division truncates toward zero (`Int.tdiv`). -/
def computeBatchSize (remainingTime : Int) : Int :=
  min (remainingTime.tdiv timePerToken) 100

/-- `UPDATE gw2_account_api_tokens SET last_valid_check_time = $1,
last_valid_time = $1 WHERE account_id = $2 AND gw2_account_id = $3`
(the success branch of `checkSingleInternal`). -/
def updateTokenOnSuccess (now : Int) (aid gid : Nat) (db : Db) : Db :=
  { db with tokens := db.tokens.map fun t =>
      if t.accountId = aid ∧ t.gw2AccountId = gid then
        { t with lastValidCheckTime := now, lastValidTime := now }
      else t }

/-- `UPDATE gw2_accounts SET gw2_account_name = $1, last_name_check_time = $2
WHERE account_id = $3 AND gw2_account_id = $4`
(the success branch of `checkSingleInternal`). -/
def updateAccountOnSuccess (name : String) (now : Int) (aid gid : Nat)
    (db : Db) : Db :=
  { db with accounts := db.accounts.map fun a =>
      if a.accountId = aid ∧ a.gw2AccountId = gid then
        { a with gw2AccountName := name, lastNameCheckTime := now }
      else a }

/-- `UPDATE gw2_account_api_tokens SET last_valid_check_time = $1
WHERE account_id = $2 AND gw2_account_id = $3`
(the failure branch of `checkSingleInternal`). -/
def updateTokenOnFailure (now : Int) (aid gid : Nat) (db : Db) : Db :=
  { db with tokens := db.tokens.map fun t =>
      if t.accountId = aid ∧ t.gw2AccountId = gid then
        { t with lastValidCheckTime := now }
      else t }

/-- `UPDATE gw2_accounts SET last_name_check_time = $1
WHERE account_id = $2 AND gw2_account_id = $3`
(the failure branch of `checkSingleInternal`). -/
def updateAccountOnFailure (now : Int) (aid gid : Nat) (db : Db) : Db :=
  { db with accounts := db.accounts.map fun a =>
      if a.accountId = aid ∧ a.gw2AccountId = gid then
        { a with lastNameCheckTime := now }
      else a }

/-- The write phase of `TokenChecker.checkSingleInternal`.

`nameResult` is the outcome of `getGw2AccountName` (`some newName` when
`err == nil`, i.e. `isValid = true`; `none` otherwise).  The source opens a
transaction via `crdbpgx.ExecuteTx(ctx, tc.pool, ...)` but issues both
UPDATE statements through `tc.pool.Exec`, not through the transaction's
`tx`: each statement therefore runs on its own pooled connection and
auto-commits independently, and rolling back the (empty) transaction undoes
neither of them.  `exec1Ok`/`exec2Ok` model whether each `pool.Exec`
succeeds; a failed statement changes nothing.  Both statements are always
attempted (`err1`/`err2` are only joined at the end), and the returned flag
is `errors.Join(err1, err2) == nil`. -/
def checkSingleInternalExec (nameResult : Option String) (now : Int)
    (aid gid : Nat) (exec1Ok exec2Ok : Bool) (db : Db) : Db × Bool :=
  match nameResult with
  | some newName =>
      let db1 := if exec1Ok then updateTokenOnSuccess now aid gid db else db
      let db2 :=
        if exec2Ok then updateAccountOnSuccess newName now aid gid db1 else db1
      (db2, exec1Ok && exec2Ok)
  | none =>
      let db1 := if exec1Ok then updateTokenOnFailure now aid gid db else db
      let db2 :=
        if exec2Ok then updateAccountOnFailure now aid gid db1 else db1
      (db2, exec1Ok && exec2Ok)

/-- The environment a run executes against: the validator outcome per API
token (`validate tok = some name` iff `getGw2AccountName` returns `name`
with a nil error) and, per identity pair, whether each of the two UPDATE
statements of `checkSingleInternal` succeeds. -/
structure CheckEnv where
  validate : String → Option String
  writeOks : Nat → Nat → Bool × Bool

/-- `TokenChecker.checkSingle`/`checkSingleInternal` for one selected token:
call the validator, then run the write phase; tracing is a side channel and
not modelled. -/
def checkSingle (env : CheckEnv) (now : Int) (t : TokenRow) (db : Db) :
    Db × Bool :=
  let oks := env.writeOks t.accountId t.gw2AccountId
  checkSingleInternalExec (env.validate t.gw2ApiToken) now
    t.accountId t.gw2AccountId oks.1 oks.2 db

/-- `TokenChecker.checkBatch`: check each selected token sequentially and
stop at the first token whose `checkSingle` reports an error.  Writes that
already committed persist even when a later statement fails (they went
through the pool), so the database is returned alongside the success flag. -/
def checkBatch (env : CheckEnv) (now : Int) :
    List TokenRow → Db → Db × Bool
  | [], db => (db, true)
  | t :: rest, db =>
      let res := checkSingle env now t db
      if res.2 then checkBatch env now rest res.1 else (res.1, false)

/-- Terminal state of one run: `done` (normal stop), `failed` (an error
returned from `Run`), `crashed` (an unrecovered run-time panic), and
`running` marks an unfinished loop when the supplied clock trace ends
before the loop does. -/
inductive RunOutcome where
  | done
  | failed
  | crashed
  | running
  deriving DecidableEq, Repr

/-- The loop of `TokenChecker.Run`.  `clock` supplies `time.Now()` at the
top of each iteration; `deadline` is the context deadline.  Each iteration
computes `remainingTime = deadline - now`, derives the batch size, and
calls `loadBatch`: a negative batch size panics there before any query
(crashing the process), an empty batch stops the run with "done", and
otherwise the batch is checked, aborting the run with an error if the
batch check failed.  The second component counts selection queries
actually issued (the panic happens before the query, so its iteration
issues none). -/
def runLoop (env : CheckEnv) (deadline : Int) (db : Db) :
    List Int → RunOutcome × Nat
  | [] => (.running, 0)
  | now :: rest =>
      match loadBatchInt db now (computeBatchSize (deadline - now)) with
      | .panicked => (.crashed, 0)
      | .ok [] => (.done, 1)
      | .ok ts =>
          let res := checkBatch env now ts db
          if res.2 then
            let cont := runLoop env deadline res.1 rest
            (cont.1, cont.2 + 1)
          else (.failed, 1)

/-- The failure path of the older draft (`run` in run.go): on a failed
check it updates only `gw2_account_api_tokens.last_valid_check_time`
(no statement touches `gw2_accounts`). -/
def runGoFailureWrite (now : Int) (aid gid : Nat) (db : Db) : Db :=
  updateTokenOnFailure now aid gid db

/-- An empty store. -/
def dbEmpty : Db := ⟨[], []⟩

/-- An environment in which every validator call fails and every UPDATE
statement succeeds. -/
def envNone : CheckEnv := ⟨fun _ => none, fun _ _ => (true, true)⟩

/-- An environment in which the token "good" validates to the name "NameX",
every other token fails validation, and every UPDATE statement succeeds. -/
def envMixed : CheckEnv :=
  ⟨fun s => if s = "good" then some "NameX" else none, fun _ _ => (true, true)⟩

/-- A sample token-link row for identity (1, 2). -/
def tlA : TokenLink :=
  { accountId := 1, gw2AccountId := 2, gw2ApiToken := "api-token"
    lastValidTime := 0, lastValidCheckTime := 0 }

/-- The account row paired with `tlA`. -/
def acA : Account :=
  { accountId := 1, gw2AccountId := 2, gw2AccountName := "OldName"
    lastNameCheckTime := 0 }

/-- A store holding the single pair `tlA`/`acA`. -/
def dbA : Db := ⟨[tlA], [acA]⟩

/-- A token-link row for identity (1, 2) whose validity check is two
intervals stale, making it due for selection at instant 0. -/
def tlStale : TokenLink :=
  { accountId := 1, gw2AccountId := 2, gw2ApiToken := "api-token"
    lastValidTime := 0, lastValidCheckTime := -(2 * validCheckInterval) }

/-- A store holding the pair `tlStale`/`acA`. -/
def dbStale : Db := ⟨[tlStale], [acA]⟩

/-- The joined row the selector produces from `dbStale`. -/
def rowStale : TokenRow :=
  { accountId := 1, gw2AccountId := 2, gw2AccountName := "OldName"
    gw2ApiToken := "api-token", lastValidTime := 0
    lastValidCheckTime := -(2 * validCheckInterval), lastNameCheckTime := 0 }

/-- A selected row whose API token fails validation under `envMixed`. -/
def rowBad : TokenRow :=
  { accountId := 1, gw2AccountId := 2, gw2AccountName := "Old"
    gw2ApiToken := "bad", lastValidTime := 0
    lastValidCheckTime := 0, lastNameCheckTime := 0 }

/-- A selected row whose API token validates under `envMixed`. -/
def rowGood : TokenRow :=
  { accountId := 3, gw2AccountId := 4, gw2AccountName := "Old2"
    gw2ApiToken := "good", lastValidTime := 0
    lastValidCheckTime := 0, lastNameCheckTime := 0 }

/-- A store holding the records behind `rowBad` and `rowGood`. -/
def dbTwo : Db :=
  ⟨[⟨1, 2, "bad", 0, 0⟩, ⟨3, 4, "good", 0, 0⟩],
    [⟨1, 2, "Old", 0⟩, ⟨3, 4, "Old2", 0⟩]⟩

/-- The error flag of the write phase is exactly
`errors.Join(err1, err2) != nil`, independent of the check outcome. -/
theorem checkSingleInternalExec_snd (nr : Option String) (now : Int)
    (aid gid : Nat) (e1 e2 : Bool) (db : Db) :
    (checkSingleInternalExec nr now aid gid e1 e2 db).2 = (e1 && e2) := by
  cases nr <;> rfl

/-- Claim C7: the driver's batch size is `min(remainingTime / costPerToken,
100)` under truncating integer division; with 25 seconds remaining and a
10-second per-token cost it is at most 2, and for every remaining time it
never exceeds the hard cap of 100. -/
theorem c7_batch_size_formula :
    (∀ r : Int, computeBatchSize r = min (r.tdiv timePerToken) 100) ∧
    computeBatchSize (25 * 1000000000) ≤ 2 ∧
    (∀ r : Int, computeBatchSize r ≤ 100) :=
  ⟨fun _ => rfl, by decide, fun _ => min_le_right _ _⟩

/-- Claim C5: every row returned by the selector satisfies the WHERE
clause: its `last_valid_time` is within the validity timeout of the
selection instant, and at least one of `last_valid_check_time` /
`last_name_check_time` is at least its re-check interval old. -/
theorem c5_selector_returns_only_eligible (db : Db) (now : Int)
    (limit : Nat) (t : TokenRow) (ht : t ∈ loadBatch db now limit) :
    now - validCheckTimeout ≤ t.lastValidTime ∧
    (t.lastValidCheckTime ≤ now - validCheckInterval ∨
      t.lastNameCheckTime ≤ now - nameCheckInterval) := by
  have h1 : t ∈ List.insertionSort staleLE
      ((joinRows db).filter (eligible now)) :=
    List.take_subset _ _ ht
  have h2 : t ∈ (joinRows db).filter (eligible now) :=
    (List.perm_insertionSort staleLE _).subset h1
  have h3 := (List.mem_filter.mp h2).2
  simpa [eligible, decide_eq_true_eq] using h3

/-- Claim C5, witness: a concrete store and instant on which the selector
returns a row and the eligibility bounds hold for it. -/
theorem c5_selector_returns_only_eligible_witness :
    rowStale ∈ loadBatch dbStale 0 1 ∧
    ((0 : Int) - validCheckTimeout ≤ rowStale.lastValidTime ∧
      (rowStale.lastValidCheckTime ≤ 0 - validCheckInterval ∨
        rowStale.lastNameCheckTime ≤ 0 - nameCheckInterval)) :=
  ⟨by decide, c5_selector_returns_only_eligible dbStale 0 1 rowStale (by decide)⟩

/-- Claim C6: for every requested batch size B (a `Nat`, hence B ≥ 0) the
selector returns at most B rows, sorted ascending by the staleness key
`LEAST(last_valid_check_time, last_name_check_time)`; when no row is due it
returns the empty list; and a nonnegative batch size always reaches the
query and returns its rows (no error, no panic). -/
theorem c6_selector_contract (db : Db) (now : Int) (limit : Nat) :
    (loadBatch db now limit).length ≤ limit ∧
    List.Sorted staleLE (loadBatch db now limit) ∧
    ((joinRows db).filter (eligible now) = [] →
      loadBatch db now limit = []) ∧
    loadBatchInt db now (limit : Int) = .ok (loadBatch db now limit) := by
  refine ⟨?_, ?_, ?_, ?_⟩
  · exact List.length_take_le limit _
  · exact List.Pairwise.sublist (List.take_sublist _ _)
      (List.sorted_insertionSort staleLE _)
  · intro h
    simp [loadBatch, h]
  · simp [loadBatchInt]

/-- Claim C6, witness: with no record due, the selector returns the empty
list rather than an error. -/
theorem c6_selector_contract_witness :
    loadBatch dbEmpty 0 5 = [] :=
  (c6_selector_contract dbEmpty 0 5).2.2.1 (by decide)

/-- Claim C4, counterexample: with the deadline 20 seconds in the past the
run does not stop with "done" — the batch size min((-20s)/10s, 100) = -2
makes `make([]token, 0, batchSize)` in `loadBatch` panic before any query,
crashing the process; and with the deadline exactly reached (batch size 0)
the run does stop with "done" but only after issuing one more LIMIT-0
selection, which the claim says is not issued. -/
theorem c4_counterexample :
    runLoop envNone 0 dbEmpty [20000000000] = (.crashed, 0) ∧
    runLoop envNone 0 dbEmpty [0] = (.done, 1) ∧
    RunOutcome.crashed ≠ RunOutcome.done ∧ (1 : Nat) ≠ 0 := by
  refine ⟨by decide, by decide, by decide, by decide⟩

/-- Claim C4, amended: at the top of an iteration with
`remainingTime = deadline - now ≤ 0` the driver performs no early stop;
the computed batch size min(remainingTime/costPerToken, 100) is ≤ 0.  When
it is exactly 0 the driver still issues one LIMIT-0 selection, which
returns no rows, and the run then stops with "done"; when it is negative
`loadBatch` panics at `make([]token, 0, batchSize)` before issuing any
query and the process crashes. -/
theorem c4_expired_deadline_behavior (env : CheckEnv) (deadline now : Int)
    (db : Db) (rest : List Int) (h : deadline - now ≤ 0) :
    computeBatchSize (deadline - now) ≤ 0 ∧
    (computeBatchSize (deadline - now) = 0 →
      runLoop env deadline db (now :: rest) = (.done, 1)) ∧
    (computeBatchSize (deadline - now) < 0 →
      runLoop env deadline db (now :: rest) = (.crashed, 0)) := by
  have hb : computeBatchSize (deadline - now) ≤ 0 := by
    have h1 : (deadline - now).tdiv timePerToken ≤ 0 := by
      have h2 : deadline - now = -(-(deadline - now)) := by ring
      have h3 := Int.tdiv_nonneg (a := -(deadline - now)) (b := timePerToken)
        (by omega) (by decide)
      rw [h2, Int.neg_tdiv]
      omega
    exact le_trans (min_le_left _ _) h1
  refine ⟨hb, ?_, ?_⟩
  · intro h0
    have hload : loadBatchInt db now (computeBatchSize (deadline - now))
        = .ok [] := by
      rw [h0]
      simp [loadBatchInt, loadBatch]
    simp [runLoop, hload]
  · intro hneg
    have hload : loadBatchInt db now (computeBatchSize (deadline - now))
        = .panicked := by
      simp [loadBatchInt, hneg]
    simp [runLoop, hload]

/-- Claim C4 amended, witness: with the deadline exactly reached the batch
size is 0 and the run stops with "done" after the one zero-LIMIT
selection. -/
theorem c4_expired_deadline_behavior_witness :
    runLoop envNone 0 dbEmpty [0] = (.done, 1) :=
  (c4_expired_deadline_behavior envNone 0 0 dbEmpty [] (by decide)).2.1
    (by decide)

/-- Claim C1: the per-token outcome is NOT committed as one atomic unit.
`checkSingleInternal` issues both UPDATE statements through `tc.pool.Exec`
instead of the transaction's `tx`, so each auto-commits on its own
connection; if the token-table statement succeeds and the account-table
statement fails, the run terminates with the token record updated and the
account record untouched — a reachable partial terminal state. -/
theorem c1_partial_write_reachable :
    (checkSingleInternalExec (some "NewName") 100 1 2 true false dbA).1.tokens
      = [{ accountId := 1, gw2AccountId := 2, gw2ApiToken := "api-token"
           lastValidTime := 100, lastValidCheckTime := 100 }] ∧
    (checkSingleInternalExec (some "NewName") 100 1 2 true false dbA).1.accounts
      = dbA.accounts ∧
    (checkSingleInternalExec (some "NewName") 100 1 2 true false dbA).2
      = false := by
  refine ⟨by decide, by decide, by decide⟩

/-- Claim C2, counterexample: on a failed check, `checkSingleInternal` does
not leave the account record untouched — it sets `last_name_check_time` to
"now" (here 100, overwriting the stored 0). -/
theorem c2_counterexample :
    (checkSingleInternalExec none 100 1 2 true true dbA).1.accounts
      = [{ accountId := 1, gw2AccountId := 2, gw2AccountName := "OldName"
           lastNameCheckTime := 100 }] ∧
    (100 : Int) ≠ 0 := by
  refine ⟨by decide, by decide⟩

/-- Claim C2, amended: on a failed check the write sets
`last_valid_check_time = now` on the matching token row and
`last_name_check_time = now` on the matching account row;
`last_valid_time`, the API token, the stored display name and every
non-matching row are unchanged. -/
theorem c2_failure_write_frame (db : Db) (now : Int) (aid gid : Nat) :
    List.Forall₂ (fun (t t' : TokenLink) =>
        t'.accountId = t.accountId ∧ t'.gw2AccountId = t.gw2AccountId ∧
        t'.gw2ApiToken = t.gw2ApiToken ∧
        t'.lastValidTime = t.lastValidTime ∧
        t'.lastValidCheckTime =
          (if t.accountId = aid ∧ t.gw2AccountId = gid then now
            else t.lastValidCheckTime))
      db.tokens
      (checkSingleInternalExec none now aid gid true true db).1.tokens ∧
    List.Forall₂ (fun (a a' : Account) =>
        a'.accountId = a.accountId ∧ a'.gw2AccountId = a.gw2AccountId ∧
        a'.gw2AccountName = a.gw2AccountName ∧
        a'.lastNameCheckTime =
          (if a.accountId = aid ∧ a.gw2AccountId = gid then now
            else a.lastNameCheckTime))
      db.accounts
      (checkSingleInternalExec none now aid gid true true db).1.accounts := by
  have htok : (checkSingleInternalExec none now aid gid true true db).1.tokens
      = db.tokens.map (fun t =>
          if t.accountId = aid ∧ t.gw2AccountId = gid then
            { t with lastValidCheckTime := now }
          else t) := by
    simp [checkSingleInternalExec, updateTokenOnFailure, updateAccountOnFailure]
  have hacc : (checkSingleInternalExec none now aid gid true true db).1.accounts
      = db.accounts.map (fun a =>
          if a.accountId = aid ∧ a.gw2AccountId = gid then
            { a with lastNameCheckTime := now }
          else a) := by
    simp [checkSingleInternalExec, updateTokenOnFailure, updateAccountOnFailure]
  constructor
  · rw [htok, List.forall₂_map_right_iff]
    refine List.forall₂_same.mpr fun t _ => ?_
    by_cases hkey : t.accountId = aid ∧ t.gw2AccountId = gid
    · simp [hkey]
    · simp [hkey]
  · rw [hacc, List.forall₂_map_right_iff]
    refine List.forall₂_same.mpr fun a _ => ?_
    by_cases hkey : a.accountId = aid ∧ a.gw2AccountId = gid
    · simp [hkey]
    · simp [hkey]

/-- Claim C3: on a successful check returning a display name, the write
sets `last_valid_check_time = now` and `last_valid_time = now` on the
matching token row, and `gw2_account_name = <new name>` and
`last_name_check_time = now` on the matching account row; the API token
and every non-matching row are unchanged. -/
theorem c3_success_write (db : Db) (now : Int) (aid gid : Nat)
    (name : String) :
    List.Forall₂ (fun (t t' : TokenLink) =>
        t'.accountId = t.accountId ∧ t'.gw2AccountId = t.gw2AccountId ∧
        t'.gw2ApiToken = t.gw2ApiToken ∧
        t'.lastValidCheckTime =
          (if t.accountId = aid ∧ t.gw2AccountId = gid then now
            else t.lastValidCheckTime) ∧
        t'.lastValidTime =
          (if t.accountId = aid ∧ t.gw2AccountId = gid then now
            else t.lastValidTime))
      db.tokens
      (checkSingleInternalExec (some name) now aid gid true true db).1.tokens ∧
    List.Forall₂ (fun (a a' : Account) =>
        a'.accountId = a.accountId ∧ a'.gw2AccountId = a.gw2AccountId ∧
        a'.gw2AccountName =
          (if a.accountId = aid ∧ a.gw2AccountId = gid then name
            else a.gw2AccountName) ∧
        a'.lastNameCheckTime =
          (if a.accountId = aid ∧ a.gw2AccountId = gid then now
            else a.lastNameCheckTime))
      db.accounts
      (checkSingleInternalExec (some name) now aid gid true true db).1.accounts := by
  have htok : (checkSingleInternalExec (some name) now aid gid true true
        db).1.tokens
      = db.tokens.map (fun t =>
          if t.accountId = aid ∧ t.gw2AccountId = gid then
            { t with lastValidCheckTime := now, lastValidTime := now }
          else t) := by
    simp [checkSingleInternalExec, updateTokenOnSuccess, updateAccountOnSuccess]
  have hacc : (checkSingleInternalExec (some name) now aid gid true true
        db).1.accounts
      = db.accounts.map (fun a =>
          if a.accountId = aid ∧ a.gw2AccountId = gid then
            { a with gw2AccountName := name, lastNameCheckTime := now }
          else a) := by
    simp [checkSingleInternalExec, updateTokenOnSuccess, updateAccountOnSuccess]
  constructor
  · rw [htok, List.forall₂_map_right_iff]
    refine List.forall₂_same.mpr fun t _ => ?_
    by_cases hkey : t.accountId = aid ∧ t.gw2AccountId = gid
    · simp [hkey]
    · simp [hkey]
  · rw [hacc, List.forall₂_map_right_iff]
    refine List.forall₂_same.mpr fun a _ => ?_
    by_cases hkey : a.accountId = aid ∧ a.gw2AccountId = gid
    · simp [hkey]
    · simp [hkey]

/-- Claim C9: the successful-check write is idempotent — applying it twice
with the same instant, identity pair and display name yields the same
store as applying it once. -/
theorem c9_success_write_idempotent (db : Db) (now : Int) (aid gid : Nat)
    (name : String) :
    (checkSingleInternalExec (some name) now aid gid true true
        (checkSingleInternalExec (some name) now aid gid true true db).1).1
      = (checkSingleInternalExec (some name) now aid gid true true db).1 := by
  simp only [checkSingleInternalExec, if_pos trivial, if_true]
  simp only [updateTokenOnSuccess, updateAccountOnSuccess]
  refine congrArg₂ Db.mk ?_ ?_
  · rw [List.map_map]
    refine List.map_congr_left fun t _ => ?_
    by_cases hkey : t.accountId = aid ∧ t.gw2AccountId = gid
    · simp [Function.comp, hkey]
    · simp [Function.comp, hkey]
  · rw [List.map_map]
    refine List.map_congr_left fun a _ => ?_
    by_cases hkey : a.accountId = aid ∧ a.gw2AccountId = gid
    · simp [Function.comp, hkey]
    · simp [Function.comp, hkey]

/-- Claim C8: a validation failure is never fatal.  When every UPDATE
statement commits, `checkBatch` reports no error and processes every
selected token in order — the final store is the left fold of the
per-token writes — and a token whose validator call failed is routed to
the invalid write path of `checkSingleInternal`. -/
theorem c8_validation_failure_not_fatal (env : CheckEnv) (now : Int)
    (ts : List TokenRow) (db : Db)
    (h : ∀ t ∈ ts, env.writeOks t.accountId t.gw2AccountId = (true, true)) :
    (checkBatch env now ts db).2 = true ∧
    (checkBatch env now ts db).1 =
      ts.foldl (fun d t => (checkSingle env now t d).1) db ∧
    (∀ (t : TokenRow) (d : Db), env.validate t.gw2ApiToken = none →
      checkSingle env now t d =
        checkSingleInternalExec none now t.accountId t.gw2AccountId
          (env.writeOks t.accountId t.gw2AccountId).1
          (env.writeOks t.accountId t.gw2AccountId).2 d) := by
  have main : ∀ (l : List TokenRow) (d : Db),
      (∀ t ∈ l, env.writeOks t.accountId t.gw2AccountId = (true, true)) →
      (checkBatch env now l d).2 = true ∧
      (checkBatch env now l d).1 =
        l.foldl (fun d t => (checkSingle env now t d).1) d := by
    intro l
    induction l with
    | nil => exact fun d _ => ⟨rfl, rfl⟩
    | cons t rest ih =>
        intro d hl
        have hok := hl t (List.mem_cons_self t rest)
        have hsnd : (checkSingle env now t d).2 = true := by
          simp [checkSingle, hok, checkSingleInternalExec_snd]
        have ihr := ih ((checkSingle env now t d).1)
          (fun x hx => hl x (List.mem_cons_of_mem _ hx))
        refine ⟨?_, ?_⟩
        · simp [checkBatch, hsnd, ihr.1]
        · simp [checkBatch, hsnd, ihr.2]
  exact ⟨(main ts db h).1, (main ts db h).2,
    fun t d hv => by simp [checkSingle, hv]⟩

/-- Claim C8, witness: a batch of two tokens of which the first fails
validation completes without error under an environment where all writes
commit. -/
theorem c8_validation_failure_not_fatal_witness :
    (∀ t ∈ [rowBad, rowGood],
      envMixed.writeOks t.accountId t.gw2AccountId = (true, true)) ∧
    (checkBatch envMixed 100 [rowBad, rowGood] dbTwo).2 = true :=
  ⟨fun _ _ => rfl,
    (c8_validation_failure_not_fatal envMixed 100 [rowBad, rowGood] dbTwo
      (fun _ _ => rfl)).1⟩

end TokenChecker

